import Mathlib

/-!
Verification of the "Note Summarizer View" (src/App.tsx) of the AI-Summary
repository.  The view's React state hooks are embedded as one record
`AppState`; each handler becomes a pure state transformer.  Handlers that may
call the external summarization collaborator or the platform clipboard return,
besides the new state, a `Bool` telling whether such an external call was
issued.  The asynchronous `handleSummarize` is modelled by its resolved
outcome: the function takes the collaborator's response (success with a result
string, or failure with an optional message, matching a JS error whose
`message` property may be absent) and returns the state after the promise has
settled, with the intermediate `setIsLoading(true)`/`setError(null)`/
`setSummary('')` entry writes folded through to the final state exactly as the
code performs them.
-/

/-- The view state held by the `useState` hooks of `App` (src/App.tsx,
lines 9–14): `inputText`, `summary`, `isLoading`, `error`, `apiKeyMissing`
and `copyNotification`. -/
structure AppState where
  inputText : String
  summary : String
  isLoading : Bool
  error : Option String
  apiKeyMissing : Bool
  copyNotification : Option String
deriving Repr, DecidableEq

/-- The initial hook values: all strings empty, flags false, options `none`. -/
def initState : AppState :=
  { inputText := "", summary := "", isLoading := false, error := none,
    apiKeyMissing := false, copyNotification := none }

/-- The fixed message stored by the startup check when the API key is absent
(src/App.tsx, line 19). -/
def apiKeyMissingMsg : String :=
  "Gemini API key is missing. Please set the API_KEY environment variable."

/-- The validation message stored for blank input (src/App.tsx, line 26). -/
def validationMsg : String := "Please enter some text to summarize."

/-- The generic fallback error message (src/App.tsx, line 37). -/
def fallbackErrorMsg : String :=
  "Failed to summarize text. Check console for details."

/-- JavaScript `String.prototype.trim`, as applied by the source in
`inputText.trim()` (src/App.tsx, lines 25, 119, 132): strip leading and
trailing whitespace.  Written over the character list so that it reduces in
the kernel (the standard-library `String.trim` is defined by well-founded
recursion on byte positions). -/
def jsTrim (s : String) : String :=
  ⟨((s.data.dropWhile Char.isWhitespace).reverse.dropWhile
      Char.isWhitespace).reverse⟩

/-- The `useEffect` startup check (src/App.tsx, lines 16–21): if the
`API_KEY` environment variable is absent, set `apiKeyMissing` and store the
fixed error message; otherwise the state is untouched. -/
def startupCheck (apiKeyPresent : Bool) (s : AppState) : AppState :=
  if !apiKeyPresent then
    { s with apiKeyMissing := true, error := some apiKeyMissingMsg }
  else s

/-- The resolved outcome of a `summarizeText` collaborator call: success with
a summary string, or a thrown error whose `message` property may be absent
(`none`) or any string, including the empty one. -/
inductive SummarizeOutcome where
  | ok (result : String)
  | err (message : Option String)
deriving Repr, DecidableEq

/-- `e.message || "Failed to summarize text. Check console for details."`
(src/App.tsx, line 37): JavaScript `||` takes the fallback when `e.message`
is absent (`undefined`) or falsy, which for strings means empty. -/
def errMessageOf : Option String → String
  | some m => if m.isEmpty then fallbackErrorMsg else m
  | none => fallbackErrorMsg

/-- `handleSummarize` (src/App.tsx, lines 23–41), resolved against collaborator
outcome `o`.  Returns the settled state and whether `summarizeText` was
invoked.  Guard one: `if (apiKeyMissing) return`.  Guard two:
`if (!inputText.trim())` store the validation message and return.  Otherwise
the entry writes set loading true and clear error and summary, the call is
issued, and on success the summary becomes the result while on failure the
error becomes `e.message || fallback`; the `finally` clause clears the loading
flag in both branches. -/
def handleSummarize (s : AppState) (o : SummarizeOutcome) : AppState × Bool :=
  if s.apiKeyMissing then (s, false)
  else if (jsTrim s.inputText).isEmpty then
    ({ s with error := some validationMsg }, false)
  else
    match o with
    | .ok r => ({ s with isLoading := false, error := none, summary := r }, true)
    | .err m =>
        ({ s with isLoading := false, error := some (errMessageOf m),
                  summary := "" }, true)

/-- `handleClear` (src/App.tsx, lines 43–48): reset `inputText`, `summary`,
`error` and `copyNotification`; the other fields are untouched. -/
def handleClear (s : AppState) : AppState :=
  { s with inputText := "", summary := "", error := none,
           copyNotification := none }

/-- `showCopyNotification` (src/App.tsx, lines 50–55): store the message in
`copyNotification` (the 2000 ms expiry is modelled by `notificationExpire`). -/
def showCopyNotification (s : AppState) (message : String) : AppState :=
  { s with copyNotification := some message }

/-- The `setTimeout` callback of `showCopyNotification` (src/App.tsx,
lines 52–54): clear the notification. -/
def notificationExpire (s : AppState) : AppState :=
  { s with copyNotification := none }

/-- `copyToClipboard(text, type)` (src/App.tsx, lines 57–66): `if (!text)
return` — a no-op exactly when `text` is the empty string, with no trimming.
Otherwise the clipboard write is attempted (second component `true`); its
success or failure (`writeOk`) only selects the notification message. -/
def copyToClipboard (s : AppState) (text ty : String) (writeOk : Bool) :
    AppState × Bool :=
  if text.isEmpty then (s, false)
  else if writeOk then
    (showCopyNotification s (ty ++ " copied to clipboard!"), true)
  else
    (showCopyNotification s ("Failed to copy " ++ ty ++ "."), true)

/-- The textarea `onChange` handler (src/App.tsx, line 110): replace the note
text unconditionally. -/
def setNoteText (s : AppState) (t : String) : AppState :=
  { s with inputText := t }

/-- The `disabled` prop of the summarize button (src/App.tsx, line 119):
`isLoading || apiKeyMissing || !inputText.trim()`. -/
def summarizeDisabled (s : AppState) : Bool :=
  s.isLoading || s.apiKeyMissing || (jsTrim s.inputText).isEmpty

/-- Every operation the view can perform after startup. -/
inductive Op where
  | summarize (o : SummarizeOutcome)
  | clear
  | copy (text ty : String) (writeOk : Bool)
  | setNote (t : String)
  | notifExpire
deriving Repr

/-- The state transition performed by one operation. -/
def applyOp (op : Op) (s : AppState) : AppState :=
  match op with
  | .summarize o => (handleSummarize s o).1
  | .clear => handleClear s
  | .copy text ty ok => (copyToClipboard s text ty ok).1
  | .setNote t => setNoteText s t
  | .notifExpire => notificationExpire s

/-! ## Helper lemmas -/

/-- Whatever the collaborator supplies, the stored failure message is
non-empty: a non-empty supplied message is kept, and both an absent and an
empty supplied message are replaced by the non-empty fallback. -/
theorem errMessageOf_ne_empty (m : Option String) : errMessageOf m ≠ "" := by
  cases m with
  | none => simp [errMessageOf, fallbackErrorMsg]
  | some a =>
      simp only [errMessageOf]
      split
      · simp [fallbackErrorMsg]
      · next ha =>
          intro h
          rw [h] at ha
          exact ha rfl

/-! ## Claims -/

/-- C1: for every note text and every successful collaborator response `R`
reached through the guards (configuration flag unset, note text non-blank),
the state after `handleSummarize` resolves has `summary = R` and
`isLoading = false`. -/
theorem C1_success_sets_summary_and_clears_loading (s : AppState) (R : String)
    (h1 : s.apiKeyMissing = false)
    (h2 : (jsTrim s.inputText).isEmpty = false) :
    (handleSummarize s (.ok R)).1.summary = R ∧
    (handleSummarize s (.ok R)).1.isLoading = false := by
  simp [handleSummarize, h1, h2]

/-- C1 witness: concrete run with note `"T"` and response `"R"`. -/
theorem C1_witness :
    (handleSummarize ⟨"T", "", true, none, false, none⟩ (.ok "R")).1.summary
        = "R" ∧
    (handleSummarize ⟨"T", "", true, none, false, none⟩
        (.ok "R")).1.isLoading = false :=
  C1_success_sets_summary_and_clears_loading
    ⟨"T", "", true, none, false, none⟩ "R" (by decide) (by decide)

/-- C2 counterexample: the summary does not remain unchanged across a failing
call — from a prior state whose summary is `"old summary"`, a failing call
leaves summary `""` (it is cleared on entry), not `"old summary"`. -/
theorem C2_counterexample :
    (handleSummarize ⟨"note", "old summary", false, none, false, none⟩
        (.err none)).1.summary
      ≠ (⟨"note", "old summary", false, none, false, none⟩ : AppState).summary := by
  decide

/-- C2 (amended): for every prior state passing the guards and every failing
collaborator call, after `handleSummarize` resolves the error is a non-empty
string, the loading flag is false, and the summary is the empty string — it
was cleared on entry, so it is not in general the pre-call summary. -/
theorem C2_failure_clears_summary_sets_error (s : AppState) (m : Option String)
    (h1 : s.apiKeyMissing = false)
    (h2 : (jsTrim s.inputText).isEmpty = false) :
    (∃ e, (handleSummarize s (.err m)).1.error = some e ∧ e ≠ "") ∧
    (handleSummarize s (.err m)).1.isLoading = false ∧
    (handleSummarize s (.err m)).1.summary = "" := by
  refine ⟨⟨errMessageOf m, ?_, errMessageOf_ne_empty m⟩, ?_, ?_⟩ <;>
    simp [handleSummarize, h1, h2]

/-- C2 witness: concrete failing run from a state with a prior summary. -/
theorem C2_witness :
    (∃ e, (handleSummarize ⟨"note", "old", false, none, false, none⟩
        (.err none)).1.error = some e ∧ e ≠ "") ∧
    (handleSummarize ⟨"note", "old", false, none, false, none⟩
        (.err none)).1.isLoading = false ∧
    (handleSummarize ⟨"note", "old", false, none, false, none⟩
        (.err none)).1.summary = "" :=
  C2_failure_clears_summary_sets_error
    ⟨"note", "old", false, none, false, none⟩ none (by decide) (by decide)

/-- C3 counterexample: with blank note text but the configuration flag set,
`handleSummarize` returns at the first guard without storing the validation
error, so "sets a validation error" fails for that state. -/
theorem C3_counterexample :
    (jsTrim (⟨"", "", false, none, true, none⟩ : AppState).inputText).isEmpty
        = true ∧
    (handleSummarize ⟨"", "", false, none, true, none⟩ (.ok "")).1.error
      ≠ some validationMsg := by
  decide

/-- C3 (amended): for every state whose configuration flag is unset and whose
note text is empty or whitespace-only, `handleSummarize` stores the validation
error and issues no collaborator call. -/
theorem C3_blank_input_validation_error (s : AppState) (o : SummarizeOutcome)
    (h1 : s.apiKeyMissing = false)
    (h2 : (jsTrim s.inputText).isEmpty = true) :
    (handleSummarize s o).1.error = some validationMsg ∧
    (handleSummarize s o).2 = false := by
  simp [handleSummarize, h1, h2]

/-- C3 witness: concrete run on whitespace-only note text. -/
theorem C3_witness :
    (handleSummarize ⟨"  ", "", false, none, false, none⟩
        (.ok "r")).1.error = some validationMsg ∧
    (handleSummarize ⟨"  ", "", false, none, false, none⟩ (.ok "r")).2
        = false :=
  C3_blank_input_validation_error ⟨"  ", "", false, none, false, none⟩
    (.ok "r") (by decide) (by decide)

/-- C4: whenever the configuration flag is set, `handleSummarize` is a no-op:
the state is returned unchanged in every component and no collaborator call is
issued. -/
theorem C4_config_flag_makes_summarize_noop (s : AppState)
    (o : SummarizeOutcome) (h : s.apiKeyMissing = true) :
    handleSummarize s o = (s, false) := by
  simp [handleSummarize, h]

/-- C4 witness: concrete no-op run with the configuration flag set. -/
theorem C4_witness :
    handleSummarize ⟨"some note", "sum", false, some "e", true, none⟩
        (.ok "r")
      = (⟨"some note", "sum", false, some "e", true, none⟩, false) :=
  C4_config_flag_makes_summarize_noop
    ⟨"some note", "sum", false, some "e", true, none⟩ (.ok "r") (by decide)

/-- C5 counterexample: `handleSummarize` itself has no loading guard — from a
state with the loading flag true (flag unset, non-blank text), invoking it
does issue a collaborator call. -/
theorem C5_counterexample :
    (⟨"hi", "", true, none, false, none⟩ : AppState).isLoading = true ∧
    (handleSummarize ⟨"hi", "", true, none, false, none⟩ (.ok "r")).2
        = true := by
  decide

/-- C5 (amended): at most one request in flight is enforced by the view, not
by a guard inside `handleSummarize`: while the loading flag is true the
summarize button's `disabled` prop is true, so no second call can be issued
through the UI. -/
theorem C5_loading_disables_summarize_button (s : AppState)
    (h : s.isLoading = true) : summarizeDisabled s = true := by
  simp [summarizeDisabled, h]

/-- C5 witness: concrete loading state with the button disabled. -/
theorem C5_witness :
    summarizeDisabled ⟨"hi", "", true, none, false, none⟩ = true :=
  C5_loading_disables_summarize_button ⟨"hi", "", true, none, false, none⟩
    (by decide)

/-- C6: from every prior state, `handleClear` leaves note text `""`, summary
`""`, error absent, and the configuration flag unchanged. -/
theorem C6_clear_resets_fields (s : AppState) :
    (handleClear s).inputText = "" ∧ (handleClear s).summary = "" ∧
    (handleClear s).error = none ∧
    (handleClear s).apiKeyMissing = s.apiKeyMissing := by
  simp [handleClear]

/-- C7 counterexample: the startup error message is not permanent — after the
startup check stores it, `handleClear` clears the error field. -/
theorem C7_counterexample :
    (startupCheck false initState).error = some apiKeyMissingMsg ∧
    (applyOp .clear (startupCheck false initState)).error = none := by
  decide

/-- C7 (amended): when the credential is absent at startup, the configuration
flag is set and the fixed error message is stored, and the flag is permanent —
no operation of the view changes `apiKeyMissing`; the error message, however,
is not permanent (it is cleared by `handleClear`, as the counterexample
shows). -/
theorem C7_flag_permanent :
    (∀ s : AppState, (startupCheck false s).apiKeyMissing = true ∧
        (startupCheck false s).error = some apiKeyMissingMsg) ∧
    (∀ (op : Op) (s : AppState),
        (applyOp op s).apiKeyMissing = s.apiKeyMissing) := by
  constructor
  · intro s
    simp [startupCheck]
  · intro op s
    cases op with
    | summarize o =>
        cases o <;>
          · simp only [applyOp, handleSummarize]
            split
            · rfl
            · split <;> simp
    | clear => simp [applyOp, handleClear]
    | copy text ty ok =>
        simp only [applyOp, copyToClipboard, showCopyNotification]
        split
        · rfl
        · split <;> simp
    | setNote t => simp [applyOp, setNoteText]
    | notifExpire => simp [applyOp, notificationExpire]

/-- C8 counterexample: a collaborator-supplied message can be present yet not
propagated — when the supplied message is the empty string, the stored error
is the generic fallback, not the supplied message. -/
theorem C8_counterexample :
    (handleSummarize ⟨"note", "", false, none, false, none⟩
        (.err (some ""))).1.error ≠ some "" ∧
    (handleSummarize ⟨"note", "", false, none, false, none⟩
        (.err (some ""))).1.error = some fallbackErrorMsg := by
  decide

/-- C8 (amended): on a failing call through the guards, the stored error is
the collaborator-supplied message when one is present and non-empty, and the
generic fallback when the message is absent or empty — `e.message || fallback`
treats the empty string as falsy. -/
theorem C8_error_message_propagation (s : AppState) (m : String)
    (h1 : s.apiKeyMissing = false)
    (h2 : (jsTrim s.inputText).isEmpty = false) :
    (m.isEmpty = false →
      (handleSummarize s (.err (some m))).1.error = some m) ∧
    (handleSummarize s (.err none)).1.error = some fallbackErrorMsg ∧
    (m.isEmpty = true →
      (handleSummarize s (.err (some m))).1.error = some fallbackErrorMsg) := by
  refine ⟨fun hm => ?_, ?_, fun hm => ?_⟩
  · simp [handleSummarize, errMessageOf, h1, h2, hm]
  · simp [handleSummarize, errMessageOf, h1, h2]
  · simp [handleSummarize, errMessageOf, h1, h2, hm]

/-- C8 witness: concrete runs with a non-empty supplied message. -/
theorem C8_witness :
    (("boom" : String).isEmpty = false →
      (handleSummarize ⟨"note", "", false, none, false, none⟩
          (.err (some "boom"))).1.error = some "boom") ∧
    (handleSummarize ⟨"note", "", false, none, false, none⟩
        (.err none)).1.error = some fallbackErrorMsg ∧
    (("boom" : String).isEmpty = true →
      (handleSummarize ⟨"note", "", false, none, false, none⟩
          (.err (some "boom"))).1.error = some fallbackErrorMsg) :=
  C8_error_message_propagation ⟨"note", "", false, none, false, none⟩ "boom"
    (by decide) (by decide)

/-- C9: with the empty string as text argument, `copyToClipboard` attempts no
clipboard write and changes no view state, whatever the label and whatever the
write would have done. -/
theorem C9_copy_empty_noop (s : AppState) (ty : String) (ok : Bool) :
    copyToClipboard s "" ty ok = (s, false) := rfl

/-- C10: for every non-empty text argument, even one consisting only of
whitespace, `copyToClipboard` does attempt the clipboard write and does show a
notification — its guard tests plain emptiness without trimming — while
`handleSummarize` on the same text (flag unset) issues no call, since its
blank check trims. -/
theorem C10_copy_whitespace_writes (s : AppState) (text ty : String)
    (ok : Bool) (h1 : text.isEmpty = false)
    (h2 : (jsTrim text).isEmpty = true) :
    (copyToClipboard s text ty ok).2 = true ∧
    ((copyToClipboard s text ty ok).1.copyNotification).isSome = true ∧
    (handleSummarize { s with inputText := text, apiKeyMissing := false }
        (.ok "r")).2 = false := by
  refine ⟨?_, ?_, ?_⟩
  · cases ok <;> simp [copyToClipboard, h1]
  · cases ok <;> simp [copyToClipboard, h1, showCopyNotification]
  · simp [handleSummarize, h2]

/-- C10 witness: concrete run on the single-space string. -/
theorem C10_witness :
    (copyToClipboard ⟨" ", "", false, none, false, none⟩ " " "Note"
        true).2 = true ∧
    ((copyToClipboard ⟨" ", "", false, none, false, none⟩ " " "Note"
        true).1.copyNotification).isSome = true ∧
    (handleSummarize
        { (⟨" ", "", false, none, false, none⟩ : AppState) with
            inputText := " ", apiKeyMissing := false } (.ok "r")).2 = false :=
  C10_copy_whitespace_writes ⟨" ", "", false, none, false, none⟩ " " "Note"
    true (by decide) (by decide)
